import Mathlib

/-!
Verification development for the openclaw-a2a-server repository.

The definitions below are a shallow embedding of the TypeScript sources:
`src/tasks/task-store.ts` (task store), `src/jsonrpc.ts` (JSON-RPC envelope
codec), `src/server.ts` (request router and SSE streaming engine) and
`src/auth.ts` (bearer authorization).  JavaScript values that flow through
the JSON-RPC surface are modelled by the inductive `Js`; machine time
(`Date.now()`) and the random task-identifier suffix (`Math.random()`)
are externalized as explicit parameters.
-/

/-! ## Whitespace normalization (src/tasks/task-store.ts, normalizeTaskId) -/

/-- Models the JavaScript regexp class `\s` for the code points that can
realistically appear in a task identifier (ASCII whitespace).  Exotic
Unicode whitespace is not modelled. -/
def jsWS (c : Char) : Bool :=
  c = ' ' || c = '\t' || c = '\n' || c = '\r' || c = '\x0b' || c = '\x0c'

/-- Models `String.prototype.trim`: strip leading and trailing whitespace. -/
def trimJs (s : String) : String :=
  ⟨((s.data.dropWhile jsWS).reverse.dropWhile jsWS).reverse⟩

/-- Source: `normalizeTaskId(input) = input.trim().replace(/\s+/g, "")`: trim, then
delete every remaining whitespace run. -/
def normalizeTaskId (s : String) : String :=
  ⟨(trimJs s).data.filter (fun c => !jsWS c)⟩

/-! ## Task states (src/types.ts) -/

inductive TaskState where
  | accepted | queued | running | succeeded | failed | canceled | expired
deriving DecidableEq, Repr

/-- Source: `TERMINAL_STATES` from src/server.ts. -/
def TERMINAL_STATES : List TaskState :=
  [.succeeded, .failed, .canceled, .expired]

/-- Source: `TERMINAL_STATES.has(state)`. -/
def TaskState.isTerminal (s : TaskState) : Bool :=
  TERMINAL_STATES.contains s

/-- The wire spelling of a task state. -/
def TaskState.toWire : TaskState → String
  | .accepted => "accepted"
  | .queued => "queued"
  | .running => "running"
  | .succeeded => "succeeded"
  | .failed => "failed"
  | .canceled => "canceled"
  | .expired => "expired"

/-! ## Task records and the task store (src/types.ts, src/tasks/task-store.ts) -/

/-- The `result` payloads the server ever stores all have the shape
`{ status, clientOperation, taskId }` (async message/send and the
message/stream hydration). -/
structure ResultValue where
  status : String
  clientOperation : String
  taskId : String
deriving DecidableEq, Repr

/-- One entry of a task's append-only event log. -/
structure TaskEvent where
  id : Nat
  state : TaskState
  progress : Option Nat
  message : Option String
  final : Bool
deriving DecidableEq, Repr

/-- Source: `TaskRecord` from src/types.ts. -/
structure TaskRecord where
  taskId : String
  createdAt : Nat
  updatedAt : Nat
  state : TaskState
  message : Option String
  progress : Option Nat
  result : Option ResultValue
  events : List TaskEvent
deriving DecidableEq, Repr

/-- The options bag of `TaskStore.update`; `none` is the explicit
"field not provided" sentinel (JavaScript `undefined`). -/
structure UpdateOptions where
  progress : Option Nat
  message : Option String
  final : Option Bool
  result : Option ResultValue
deriving DecidableEq, Repr

/-- The record produced by `TaskStore.create`: state `accepted`,
progress 0, seed event with id 1 and `final: false`.  `rawId` models the
random suffix produced by `Math.random().toString(36).slice(2, 10)`,
`now` models `Date.now()`. -/
def createRecord (rawId : String) (now : Nat) (initialMessage : String) : TaskRecord :=
  let taskId := normalizeTaskId ("task-" ++ rawId)
  ⟨taskId, now, now, .accepted, some initialMessage, some 0, none,
    [⟨1, .accepted, some 0, some initialMessage, false⟩]⟩

/-- The record-level body of `TaskStore.update`: overwrite `state`,
refresh `updatedAt`, keep `progress`/`message`/`result` unless supplied
(`?? `/`!== undefined` in the source), and append one event with id
`events.length + 1` carrying the post-update snapshot and
`Boolean(options.final)`. -/
def updateRecord (t : TaskRecord) (state : TaskState) (o : UpdateOptions) (now : Nat) : TaskRecord :=
  let progress := match o.progress with | some p => some p | none => t.progress
  let message := match o.message with | some m => some m | none => t.message
  let result := match o.result with | some r => some r | none => t.result
  ⟨t.taskId, t.createdAt, now, state, message, progress, result,
    t.events ++ [⟨t.events.length + 1, state, progress, message, o.final.getD false⟩]⟩

/-- The task store: the private `Map<string, TaskRecord>`, modelled as an
association list whose `set` replaces any previous binding of the key. -/
abbrev TaskStore := List (String × TaskRecord)

/-- Source: `Map.get`. -/
def mapFind (s : TaskStore) (k : String) : Option TaskRecord :=
  (s.find? (fun p => p.1 == k)).map (·.2)

/-- Source: `Map.set` (replacing semantics; iteration order is not modelled). -/
def mapSet (s : TaskStore) (k : String) (t : TaskRecord) : TaskStore :=
  (k, t) :: s.filter (fun p => p.1 != k)

/-- Source: `TaskStore.create`. -/
def TaskStore.create (s : TaskStore) (rawId : String) (now : Nat)
    (initialMessage : String) : TaskRecord × TaskStore :=
  let t := createRecord rawId now initialMessage
  (t, mapSet s t.taskId t)

/-- Source: `TaskStore.get`: normalize, then look up. -/
def TaskStore.get (s : TaskStore) (taskId : String) : Option TaskRecord :=
  mapFind s (normalizeTaskId taskId)

/-- Source: `TaskStore.update`: returns `none` when the normalized identifier is
unknown; otherwise stores and returns the updated record. -/
def TaskStore.update (s : TaskStore) (taskId : String) (state : TaskState)
    (o : UpdateOptions) (now : Nat) : Option (TaskRecord × TaskStore) :=
  let canonical := normalizeTaskId taskId
  match mapFind s canonical with
  | none => none
  | some t =>
      let t' := updateRecord t state o now
      some (t', mapSet s canonical t')

/-- The router calls `this.tasks.update(...)` discarding the returned
record; the store object itself is mutated in place.  `updStore` is that
store-level effect (no-op when the task is unknown). -/
def updStore (s : TaskStore) (taskId : String) (state : TaskState)
    (o : UpdateOptions) (now : Nat) : TaskStore :=
  match TaskStore.update s taskId state o now with
  | some p => p.2
  | none => s

/-- Iterated `updateRecord` (the record under a sequence of update calls). -/
structure UpdateCall where
  state : TaskState
  options : UpdateOptions
  now : Nat
deriving DecidableEq, Repr

def foldUpdates (t : TaskRecord) (us : List UpdateCall) : TaskRecord :=
  us.foldl (fun acc u => updateRecord acc u.state u.options u.now) t

/-! ## JavaScript values and the JSON-RPC codec (src/jsonrpc.ts) -/

/-- A JavaScript value as seen by the JSON-RPC surface. -/
inductive Js where
  | null
  | undefVal
  | bool (b : Bool)
  | num (n : Int)
  | str (s : String)
  | arr (xs : List Js)
  | obj (fields : List (String × Js))

/-- Property access `v[k]`: `undefined` on anything but an object with the
key (optional chaining `?.` behaves the same on `undefined`). -/
def Js.get (v : Js) (k : String) : Js :=
  match v with
  | .obj fs =>
      match fs.find? (fun p => p.1 == k) with
      | some p => p.2
      | none => .undefVal
  | _ => .undefVal

/-- Source: `input && typeof input === "object"`: JavaScript classifies both plain
objects and arrays as `"object"`; `null` is rejected by the truthiness
test. -/
def jsObjectLike : Js → Bool
  | .obj _ => true
  | .arr _ => true
  | _ => false

/-- A JSON-RPC id: string, number or null. -/
inductive RpcId where
  | str (s : String)
  | num (n : Int)
  | null
deriving DecidableEq, Repr

def RpcId.toJs : RpcId → Js
  | .str s => .str s
  | .num n => .num n
  | .null => .null

/-- Source: `typeof obj.id === "string" || typeof obj.id === "number" || obj.id === null`. -/
def rpcIdOf : Js → Option RpcId
  | .str s => some (.str s)
  | .num n => some (.num n)
  | .null => some .null
  | _ => none

/-- The parsed request: the source returns the raw object; the router only
ever reads `id`, `method` and `params`, so the model keeps exactly those. -/
structure JsonRpcRequest where
  id : RpcId
  method : String
  params : Js

/-- Source: `parseJsonRpcRequest` from src/jsonrpc.ts. -/
def parseJsonRpcRequest (v : Js) : Option JsonRpcRequest :=
  if !jsObjectLike v then none
  else if !(match Js.get v "jsonrpc" with | .str s => s == "2.0" | _ => false) then none
  else
    match Js.get v "method" with
    | .str m =>
        match rpcIdOf (Js.get v "id") with
        | some i => some ⟨i, m, Js.get v "params"⟩
        | none => none
    | _ => none

/-- Source: `rpcResult` from src/jsonrpc.ts. -/
def rpcResult (id : RpcId) (result : Js) : Js :=
  .obj [("jsonrpc", .str "2.0"), ("id", id.toJs), ("result", result)]

/-- Source: `rpcError` from src/jsonrpc.ts. -/
def rpcError (id : RpcId) (code : Int) (message : String) (machineCode : String)
    (detail : Option String) : Js :=
  .obj [("jsonrpc", .str "2.0"), ("id", id.toJs),
    ("error", .obj [("code", .num code), ("message", .str message),
      ("data", .obj [("code", .str machineCode),
        ("detail", .str (detail.getD message))])])]

/-! ## The streaming engine (src/server.ts, streamTaskEvents) -/

/-- One SSE frame: `id: <eventId>`, `event: task`,
`data: {taskId, status:{state, progress, message}, final}`. -/
structure SseFrame where
  eventId : Nat
  taskId : String
  state : TaskState
  progress : Option Nat
  message : Option String
  final : Bool
deriving DecidableEq, Repr

/-- The frame written for one stored event (`writeSseEvent` call inside the
replay loop). -/
def frameOfEvent (taskId : String) (e : TaskEvent) : SseFrame :=
  ⟨e.id, taskId, e.state, e.progress, e.message, e.final⟩

/-- Source: `task.events.filter((event) => event.id > cursor)`. -/
def emittedEvents (t : TaskRecord) (cursor : Int) : List TaskEvent :=
  t.events.filter (fun e => decide (cursor < (e.id : Int)))

def emittedFrames (t : TaskRecord) (cursor : Int) : List SseFrame :=
  (emittedEvents t cursor).map (frameOfEvent t.taskId)

/-- Source: `events.some((e) => e.final || TERMINAL_STATES.has(e.state))` — note:
over the filtered events, not the whole log. -/
def terminalSeen (t : TaskRecord) (cursor : Int) : Bool :=
  (emittedEvents t cursor).any (fun e => e.final || e.state.isTerminal)

/-- Source: `task.events[task.events.length - 1].id`.  The source indexes the last
element and would throw on an empty log; store-created tasks always carry
the seed event, and the fallback value 0 is never reached by the theorems
below. -/
def lastEventId (events : List TaskEvent) : Nat :=
  match events.getLast? with
  | some e => e.id
  | none => 0

/-- The synthesized terminal frame: last event's id, the task's current
snapshot, `final: true`. -/
def synthFrame (t : TaskRecord) : SseFrame :=
  ⟨lastEventId t.events, t.taskId, t.state, t.progress, t.message, true⟩

/-- The full SSE frame sequence of `streamTaskEvents` for a found task and
a decoded cursor. -/
def streamFrames (t : TaskRecord) (cursor : Int) : List SseFrame :=
  if !terminalSeen t cursor && t.state.isTerminal then
    emittedFrames t cursor ++ [synthFrame t]
  else
    emittedFrames t cursor

/-- Digit-string parser backing the `Number(...)` model. -/
def parseIntDigits (cs : List Char) : Option Nat :=
  if cs.isEmpty then none
  else if cs.all (·.isDigit) then
    some (cs.foldl (fun acc c => acc * 10 + (c.toNat - 48)) 0)
  else none

/-- Models `Number(s)` restricted to the values the cursor logic can act
on: `some n` when the string denotes a finite integer (optionally signed,
whitespace-trimmed, empty string denoting 0), `none` for NaN.  Fractional,
exponent and hex spellings are not modelled and map to `none`. -/
def jsNumberInt (s : String) : Option Int :=
  let t := (trimJs s).data
  if t.isEmpty then some 0
  else
    match t with
    | '-' :: rest => (parseIntDigits rest).map (fun n => -(n : Int))
    | '+' :: rest => (parseIntDigits rest).map (fun n => (n : Int))
    | _ => (parseIntDigits t).map (fun n => (n : Int))

/-- Source: `Number(lastEventHeader ?? "0")` guarded by `Number.isFinite`: an
absent or non-numeric `Last-Event-ID` header yields cursor 0. -/
def cursorOfHeader (h : Option String) : Int :=
  match h with
  | none => 0
  | some s =>
      match jsNumberInt s with
      | some n => n
      | none => 0

/-! ## The request router (src/server.ts) -/

/-- Source: `ServerConfig` from src/types.ts (after `resolveConfig`). -/
structure ServerConfig where
  host : String
  port : Nat
  publicBaseUrl : Option String
  authToken : String
  taskTtlMs : Nat
  semanticMode : Bool
  semanticResponderUrl : Option String
  semanticTimeoutMs : Nat

/-- Source: `isAuthorized` from src/auth.ts: exact match of the `Authorization`
header against `Bearer <token>`. -/
def isAuthorized (authorization : Option String) (token : String) : Bool :=
  authorization == some ("Bearer " ++ token)

/-- The slice of an incoming HTTP request the router reads.  `body` is the
result of `JSON.parse` on the request body (`none` = invalid JSON). -/
structure Request where
  method : String
  path : String
  authorization : Option String
  lastEventId : Option String
  body : Option Js

/-- A routed response: a JSON body with a status code, an SSE body, or an
empty body. -/
inductive HttpOut where
  | json (status : Nat) (body : Js)
  | sse (frames : List SseFrame)
  | empty (status : Nat)

/-- The frames of an SSE response (empty for non-SSE responses). -/
def HttpOut.framesOf : HttpOut → List SseFrame
  | .sse fs => fs
  | _ => []

def HttpOut.statusOf : HttpOut → Nat
  | .json s _ => s
  | .sse _ => 200
  | .empty s => s

/-- JSON encoding of an optional string field (`JSON.stringify` drops
`undefined`-valued properties; the model keeps the `undef` marker). -/
def jsOfOptStr : Option String → Js
  | some s => .str s
  | none => .undefVal

def jsOfOptNat : Option Nat → Js
  | some n => .num (n : Int)
  | none => .undefVal

def jsOfResult : Option ResultValue → Js
  | some r => .obj [("status", .str r.status), ("clientOperation", .str r.clientOperation),
      ("taskId", .str r.taskId)]
  | none => .undefVal

/-- Source: `buildAgentCard` from src/card/agent-card.ts. -/
def buildAgentCard (cfg : ServerConfig) : Js :=
  let baseUrl := cfg.publicBaseUrl.getD ("http://" ++ cfg.host ++ ":" ++ toString cfg.port)
  .obj [("protocol", .str "a2a"), ("protocolVersion", .str "0.3"),
    ("name", .str "openclaw-a2a-server"), ("url", .str (baseUrl ++ "/a2a")),
    ("authentication", .obj [("schemes", .arr [.str "bearer"])]),
    ("capabilities", .arr [.str "jsonrpc", .str "request-response",
      .str "task-polling", .str "streaming"]),
    ("profiles", .arr [.str "standards"]),
    ("methods", .arr [.str "message/send", .str "message/stream",
      .str "tasks/get", .str "tasks/resubscribe"])]

/-- Source: `String((rpc.params?.taskId as string | undefined) ?? "")`.  The
conversions of array/object values are summarized (no router theorem
exercises them). -/
def inputTaskId (params : Js) : String :=
  match Js.get params "taskId" with
  | .str s => s
  | .null => ""
  | .undefVal => ""
  | .num n => toString n
  | .bool b => if b then "true" else "false"
  | .arr _ => "[array]"
  | .obj _ => "[object Object]"

/-- Source: `extractPromptText` from src/server.ts: first part whose `text` is a
string with non-empty trim, returned trimmed; else the empty string. -/
def extractPromptText (params : Js) : String :=
  let parts :=
    match Js.get (Js.get params "message") "parts" with
    | .arr xs => xs
    | _ => []
  match parts.findSome? (fun part =>
      match Js.get part "text" with
      | .str s => if 0 < (trimJs s).length then some (trimJs s) else none
      | _ => none) with
  | some t => t
  | none => ""

/-- Source: `hydrateStreamTask` from src/server.ts: if the task exists and no event
is final yet, drive it through started/working/completed to a terminal
`succeeded` state. -/
def hydrateStreamTask (s : TaskStore) (taskId : String) (now : Nat) : TaskStore :=
  match TaskStore.get s taskId with
  | none => s
  | some t =>
      if t.events.any (·.final) then s
      else
        let s1 := updStore s t.taskId .running ⟨some 35, some "started", some false, none⟩ now
        let s2 := updStore s1 t.taskId .running ⟨some 75, some "working", some false, none⟩ now
        updStore s2 t.taskId .succeeded
          ⟨some 100, some "completed", some true, some ⟨"accepted", "message/stream", taskId⟩⟩ now

/-- Source: `streamTaskEvents` from src/server.ts at the store level: 404 for an
unknown task, otherwise the SSE frames from the header-derived cursor. -/
def streamTaskEvents (s : TaskStore) (taskId : String) (lastEventId : Option String) : HttpOut :=
  match TaskStore.get s taskId with
  | none => .json 404 (rpcError .null (-32004) "Task not found" "A2A_TASK_NOT_FOUND" none)
  | some t => .sse (streamFrames t (cursorOfHeader lastEventId))

/-- The deferred `setTimeout` continuation of async `message/send`; it runs
after the response is written and is therefore not part of `route`. -/
def deferredAsyncSendUpdate (s : TaskStore) (taskId : String) (now : Nat) : TaskStore :=
  updStore s taskId .succeeded
    ⟨some 100, some "completed", some true, some ⟨"accepted", "message/send", taskId⟩⟩ now

/-- Source: `rpc.params?.metadata?.executionMode === "async"`. -/
def executionModeAsync (params : Js) : Bool :=
  match Js.get (Js.get params "metadata") "executionMode" with
  | .str s => s == "async"
  | _ => false

/-- The `message/send` branch of `route`.  `oracle` models the outcome of
`callSemanticResponder` (local fallback included); the deferred
`setTimeout` transition to `succeeded` is not part of the synchronous
result. -/
def handleMessageSend (cfg : ServerConfig) (oracle : String → RpcId → Except String String)
    (freshId : String) (now : Nat) (s : TaskStore) (rpc : JsonRpcRequest) :
    HttpOut × TaskStore :=
  if executionModeAsync rpc.params then
    let created := TaskStore.create s freshId now "accepted"
    let s2 := updStore created.2 created.1.taskId .running
      ⟨some 40, some "processing", some false, none⟩ now
    (.json 200 (rpcResult rpc.id (.obj [("status", .str "accepted"),
      ("taskId", .str created.1.taskId), ("pollMethod", .str "tasks/get"),
      ("pollAfterMs", .num 1000)])), s2)
  else if cfg.semanticMode then
    let prompt := extractPromptText rpc.params
    if prompt == "" then
      (.json 400 (rpcError rpc.id (-32602) "Missing prompt text"
        "A2A_SEMANTIC_PROMPT_MISSING" none), s)
    else
      match oracle prompt rpc.id with
      | .ok answer =>
          (.json 200 (rpcResult rpc.id (.obj [("status", .str "accepted"),
            ("clientOperation", .str "message/send"),
            ("message", .obj [("role", .str "assistant"),
              ("parts", .arr [.obj [("text", .str answer)]])])])), s)
      | .error msg =>
          (.json 502 (rpcError rpc.id (-32603) "Semantic dispatch failed"
            "A2A_SEMANTIC_BRIDGE_ERROR" (some msg)), s)
  else
    (.json 200 (rpcResult rpc.id (.obj [("status", .str "accepted"),
      ("clientOperation", .str "message/send")])), s)

/-- The `tasks/get` branch of `route`. -/
def handleTasksGet (s : TaskStore) (id : RpcId) (params : Js) : HttpOut × TaskStore :=
  let taskId := normalizeTaskId (inputTaskId params)
  match TaskStore.get s taskId with
  | none => (.json 404 (rpcError id (-32004) "Task not found" "A2A_TASK_NOT_FOUND" none), s)
  | some t =>
      (.json 200 (rpcResult id (.obj [("status", .obj [("state", .str t.state.toWire),
        ("message", jsOfOptStr t.message), ("progress", jsOfOptNat t.progress)]),
        ("taskId", .str t.taskId), ("result", jsOfResult t.result)])), s)

/-- The `message/stream` branch of `route`: create, hydrate, then stream
(note: via `streamTaskEvents`, which derives its cursor from the request's
`Last-Event-ID` header). -/
def handleMessageStream (freshId : String) (now : Nat) (s : TaskStore)
    (lastEventId : Option String) : HttpOut × TaskStore :=
  let created := TaskStore.create s freshId now "accepted"
  let s2 := hydrateStreamTask created.2 created.1.taskId now
  (streamTaskEvents s2 created.1.taskId lastEventId, s2)

/-- The `tasks/resubscribe` branch of `route`: look up, then stream; no
store write anywhere in the branch. -/
def handleResubscribe (s : TaskStore) (rpc : JsonRpcRequest)
    (lastEventId : Option String) : HttpOut × TaskStore :=
  let taskId := normalizeTaskId (inputTaskId rpc.params)
  match TaskStore.get s taskId with
  | none => (.json 404 (rpcError rpc.id (-32004) "Task not found" "A2A_TASK_NOT_FOUND" none), s)
  | some t => (streamTaskEvents s t.taskId lastEventId, s)

/-- Source: `route` from src/server.ts: authorization first, then dispatch by HTTP
method and path, then by JSON-RPC method name. -/
def route (cfg : ServerConfig) (oracle : String → RpcId → Except String String)
    (freshId : String) (now : Nat) (s : TaskStore) (req : Request) :
    HttpOut × TaskStore :=
  if !isAuthorized req.authorization cfg.authToken then
    (.json 401 (.obj [("error", .str "unauthorized")]), s)
  else if req.method == "GET" && req.path == "/" then
    (.json 200 (.obj [("ok", .bool true), ("service", .str "openclaw-a2a-server")]), s)
  else if req.method == "GET" && req.path == "/.well-known/agent-card.json" then
    (.json 200 (buildAgentCard cfg), s)
  else if req.method == "POST" && req.path == "/a2a" then
    match req.body with
    | none => (.json 400 (rpcError .null (-32700) "Parse error" "A2A_PARSE_ERROR" none), s)
    | some parsed =>
        match parseJsonRpcRequest parsed with
        | none => (.json 400 (rpcError .null (-32600) "Invalid Request" "A2A_INVALID_REQUEST" none), s)
        | some rpc =>
            if rpc.method == "message/send" then
              handleMessageSend cfg oracle freshId now s rpc
            else if rpc.method == "tasks/get" then
              handleTasksGet s rpc.id rpc.params
            else if rpc.method == "message/stream" then
              handleMessageStream freshId now s req.lastEventId
            else if rpc.method == "tasks/resubscribe" then
              handleResubscribe s rpc req.lastEventId
            else
              (.json 404 (rpcError rpc.id (-32601) "Method not found" "A2A_METHOD_NOT_FOUND" none), s)
  else
    (.empty 404, s)

/-! ## Concrete states used by witnesses and counterexamples -/

def cexCfg : ServerConfig := ⟨"127.0.0.1", 8787, none, "tok", 3600000, false, none, 15000⟩

def cexOracle : String → RpcId → Except String String := fun _ _ => Except.ok "x"

/-- A store holding one task whose state was driven to `succeeded` by an
update that supplied no options: `final` defaulted to `false`, so the log
of this terminal task contains no `final = true` event. -/
def cexStore1 : TaskStore :=
  updStore (TaskStore.create [] "aa" 0 "accepted").2 "task-aa" .succeeded
    ⟨none, none, none, none⟩ 1

/-- A store holding one task driven to `succeeded` with `final: true`. -/
def cexStore5 : TaskStore :=
  updStore (TaskStore.create [] "ee" 0 "accepted").2 "task-ee" .succeeded
    ⟨some 100, some "done", some true, none⟩ 1

/-- The terminal record stored in `cexStore5` (the fallback arm of `getD`
is dead: the lookup succeeds). -/
def cexTask5 : TaskRecord :=
  (TaskStore.get cexStore5 "task-ee").getD (createRecord "zz" 0 "x")

/-- The record stored in `cexStore1`. -/
def cexTask1 : TaskRecord :=
  (TaskStore.get cexStore1 "task-aa").getD (createRecord "zz" 0 "x")

/-- A store holding one non-terminal task with three events (ids 1..3). -/
def demoStore3 : TaskStore :=
  updStore
    (updStore (TaskStore.create [] "dd" 0 "accepted").2 "task-dd" .running
      ⟨some 40, some "w1", some false, none⟩ 1)
    "task-dd" .running ⟨some 80, some "w2", some false, none⟩ 2

def cexStreamEnvelope : Js :=
  Js.obj [("jsonrpc", Js.str "2.0"), ("id", Js.str "r1"), ("method", Js.str "message/stream")]

def cexResubEnvelope : Js :=
  Js.obj [("jsonrpc", Js.str "2.0"), ("id", Js.str "r9"),
    ("method", Js.str "tasks/resubscribe"),
    ("params", Js.obj [("taskId", Js.str "task-aa")])]

/-- A `message/stream` request that carries `Last-Event-ID: 2`. -/
def cexRoute2 : HttpOut × TaskStore :=
  route cexCfg cexOracle "bb" 0 []
    ⟨"POST", "/a2a", some "Bearer tok", some "2", some cexStreamEnvelope⟩

/-- The task record `message/stream` produces: created `accepted`, then
hydrated through started/working/completed to terminal `succeeded`. -/
def hydratedRecord (tid : String) (now : Nat) : TaskRecord :=
  ⟨tid, now, now, .succeeded, some "completed", some 100,
    some ⟨"accepted", "message/stream", tid⟩,
    [⟨1, .accepted, some 0, some "accepted", false⟩,
     ⟨2, .running, some 35, some "started", false⟩,
     ⟨3, .running, some 75, some "working", false⟩,
     ⟨4, .succeeded, some 100, some "completed", true⟩]⟩

def wUpdCall : UpdateCall := ⟨.running, ⟨some 40, none, none, none⟩, 1⟩

/-- The post-update record contract of `TaskStore.update` on a present
task `t`: state overwritten, `updatedAt` refreshed, `progress`/`message`/
`result` overwritten exactly when supplied, one appended event carrying
the post-update snapshot with the caller's `final` flag (default false). -/
def UpdateSpec (s : TaskStore) (tid : String) (st : TaskState)
    (o : UpdateOptions) (now : Nat) (t : TaskRecord) : Prop :=
  ∃ t', TaskStore.update s tid st o now = some (t', mapSet s (normalizeTaskId tid) t') ∧
    t'.state = st ∧ t'.updatedAt = now ∧
    t'.taskId = t.taskId ∧ t'.createdAt = t.createdAt ∧
    (∀ p, o.progress = some p → t'.progress = some p) ∧
    (o.progress = none → t'.progress = t.progress) ∧
    (∀ m, o.message = some m → t'.message = some m) ∧
    (o.message = none → t'.message = t.message) ∧
    (∀ r, o.result = some r → t'.result = some r) ∧
    (o.result = none → t'.result = t.result) ∧
    t'.events = t.events ++
      [⟨t.events.length + 1, st, t'.progress, t'.message, o.final.getD false⟩] ∧
    (o.final = none → (t'.events.getLast?).map (·.final) = some false)

/-! ## Helper lemmas -/

theorem dropWhile_jsWS_of_clean {l : List Char} (h : ∀ c ∈ l, jsWS c = false) :
    l.dropWhile jsWS = l := by
  cases l with
  | nil => rfl
  | cons a as => simp [List.dropWhile_cons, h a (List.mem_cons_self a as)]

theorem normalizeTaskId_clean (s : String) :
    ∀ c ∈ (normalizeTaskId s).data, jsWS c = false := by
  intro c hc
  have := (List.mem_filter.mp hc).2
  simpa using this

theorem normalizeTaskId_idem (s : String) :
    normalizeTaskId (normalizeTaskId s) = normalizeTaskId s := by
  have hclean := normalizeTaskId_clean s
  have htrim : trimJs (normalizeTaskId s) = normalizeTaskId s := by
    unfold trimJs
    have h1 : (normalizeTaskId s).data.dropWhile jsWS = (normalizeTaskId s).data :=
      dropWhile_jsWS_of_clean hclean
    have hrev : ∀ c ∈ (normalizeTaskId s).data.reverse, jsWS c = false := by
      intro c hc; exact hclean c (List.mem_reverse.mp hc)
    have h2 : (normalizeTaskId s).data.reverse.dropWhile jsWS =
        (normalizeTaskId s).data.reverse := dropWhile_jsWS_of_clean hrev
    rw [h1, h2, List.reverse_reverse]
  have hfilter : (normalizeTaskId s).data.filter (fun c => !jsWS c) = (normalizeTaskId s).data :=
    List.filter_eq_self.mpr (by intro c hc; simp [normalizeTaskId_clean s c hc])
  calc normalizeTaskId (normalizeTaskId s)
      = ⟨(trimJs (normalizeTaskId s)).data.filter (fun c => !jsWS c)⟩ := rfl
    _ = ⟨(normalizeTaskId s).data.filter (fun c => !jsWS c)⟩ := by rw [htrim]
    _ = ⟨(normalizeTaskId s).data⟩ := by rw [hfilter]
    _ = normalizeTaskId s := rfl

theorem mapFind_set_self (s : TaskStore) (k : String) (t : TaskRecord) :
    mapFind (mapSet s k t) k = some t := by
  simp [mapFind, mapSet, List.find?]

theorem mapSet_mapSet (s : TaskStore) (k : String) (a b : TaskRecord) :
    mapSet (mapSet s k a) k b = mapSet s k b := by
  simp [mapSet, List.filter_filter]

theorem get_set_self (s : TaskStore) (k : String) (t : TaskRecord)
    (hk : normalizeTaskId k = k) : TaskStore.get (mapSet s k t) k = some t := by
  simp [TaskStore.get, hk, mapFind_set_self]

theorem foldUpdates_append (t : TaskRecord) (us₁ us₂ : List UpdateCall) :
    foldUpdates t (us₁ ++ us₂) = foldUpdates (foldUpdates t us₁) us₂ := by
  simp [foldUpdates, List.foldl_append]

theorem updateRecord_map_id (t : TaskRecord) (st : TaskState) (o : UpdateOptions) (now : Nat) :
    (updateRecord t st o now).events.map (·.id) =
      t.events.map (·.id) ++ [t.events.length + 1] := by
  simp [updateRecord]

theorem updateRecord_events_length (t : TaskRecord) (st : TaskState) (o : UpdateOptions)
    (now : Nat) : (updateRecord t st o now).events.length = t.events.length + 1 := by
  simp [updateRecord]

theorem foldUpdates_ids (us : List UpdateCall) : ∀ t : TaskRecord,
    t.events.map (·.id) = List.range' 1 t.events.length →
    (foldUpdates t us).events.length = t.events.length + us.length ∧
    (foldUpdates t us).events.map (·.id) = List.range' 1 (t.events.length + us.length) := by
  induction us with
  | nil => intro t ht; simpa [foldUpdates] using ht
  | cons u us ih =>
      intro t ht
      have hlen := updateRecord_events_length t u.state u.options u.now
      have hmap : (updateRecord t u.state u.options u.now).events.map (·.id) =
          List.range' 1 (updateRecord t u.state u.options u.now).events.length := by
        rw [updateRecord_map_id, hlen, ht, List.range'_1_concat, Nat.add_comm 1 t.events.length]
      have hrec := ih (updateRecord t u.state u.options u.now) hmap
      have hstep : foldUpdates t (u :: us) =
          foldUpdates (updateRecord t u.state u.options u.now) us := rfl
      rw [hstep]
      refine ⟨?_, ?_⟩
      · rw [hrec.1, hlen, List.length_cons]; omega
      · rw [hrec.2, hlen, List.length_cons]
        congr 1
        omega

theorem foldUpdates_extends (us : List UpdateCall) : ∀ t : TaskRecord,
    t.events <+: (foldUpdates t us).events := by
  induction us with
  | nil => intro t; exact List.prefix_refl _
  | cons u us ih =>
      intro t
      have h1 : t.events <+: (updateRecord t u.state u.options u.now).events := by
        rw [show (updateRecord t u.state u.options u.now).events = t.events ++
          [⟨t.events.length + 1, u.state, (updateRecord t u.state u.options u.now).progress,
            (updateRecord t u.state u.options u.now).message, u.options.final.getD false⟩]
          from rfl]
        exact List.prefix_append _ _
      exact h1.trans (ih _)

theorem inputTaskId_str (tid : String) :
    inputTaskId (Js.obj [("taskId", Js.str tid)]) = tid := by
  simp [inputTaskId, Js.get, List.find?]

/-! ## Theorems: envelope codec -/

/-- C9: an error envelope has an `id` but no `method` field, so the request
parser rejects it. -/
theorem parse_rejects_formatError (id : RpcId) (code : Int)
    (message machineCode : String) (detail : Option String) :
    parseJsonRpcRequest (rpcError id code message machineCode detail) = none := by
  simp [parseJsonRpcRequest, rpcError, Js.get, jsObjectLike, List.find?]

/-! ## Theorems: task store -/

/-- C3: after any sequence of `n` update calls following creation, the
event log has exactly `n + 1` events whose ids are `1, 2, ..., n + 1` in
order, and the log reached after any prefix of the calls is a prefix of
the final log (events are only appended, never reordered or mutated). -/
theorem task_log_ids (rawId msg : String) (now : Nat) (us : List UpdateCall) :
    (foldUpdates (createRecord rawId now msg) us).events.length = us.length + 1 ∧
    (foldUpdates (createRecord rawId now msg) us).events.map (·.id) =
      List.range' 1 (us.length + 1) ∧
    ∀ us₁ us₂, us = us₁ ++ us₂ →
      (foldUpdates (createRecord rawId now msg) us₁).events <+:
        (foldUpdates (createRecord rawId now msg) us).events := by
  have hbase : (createRecord rawId now msg).events.map (·.id) =
      List.range' 1 (createRecord rawId now msg).events.length := by
    simp [createRecord]
  have h := foldUpdates_ids us (createRecord rawId now msg) hbase
  have hlen1 : (createRecord rawId now msg).events.length = 1 := by simp [createRecord]
  refine ⟨?_, ?_, ?_⟩
  · rw [h.1, hlen1]; omega
  · rw [h.2, hlen1]; congr 1; omega
  · intro us₁ us₂ hsplit
    rw [hsplit, foldUpdates_append]
    exact foldUpdates_extends us₂ _

theorem task_log_ids_witness :
    (foldUpdates (createRecord "x" 0 "accepted") [wUpdCall]).events.map (·.id) =
      List.range' 1 2 ∧
    (foldUpdates (createRecord "x" 0 "accepted") []).events <+:
      (foldUpdates (createRecord "x" 0 "accepted") [wUpdCall]).events :=
  ⟨(task_log_ids "x" "accepted" 0 [wUpdCall]).2.1,
   (task_log_ids "x" "accepted" 0 [wUpdCall]).2.2 [] [wUpdCall] rfl⟩

/-- C4: task lookup is invariant under whitespace: `get s` equals
`get (normalizeTaskId s)`; identifiers with equal normalizations resolve
identically, both at the store and through the `tasks/get` handler; and
every identifier that does not resolve yields the one task-not-found
error. -/
theorem get_whitespace_invariant :
    (∀ (s : TaskStore) (tid : String),
      TaskStore.get s tid = TaskStore.get s (normalizeTaskId tid)) ∧
    (∀ (s : TaskStore) (t₁ t₂ : String), normalizeTaskId t₁ = normalizeTaskId t₂ →
      TaskStore.get s t₁ = TaskStore.get s t₂) ∧
    (∀ (s : TaskStore) (idr : RpcId) (t₁ t₂ : String),
      normalizeTaskId t₁ = normalizeTaskId t₂ →
      handleTasksGet s idr (Js.obj [("taskId", Js.str t₁)]) =
        handleTasksGet s idr (Js.obj [("taskId", Js.str t₂)])) ∧
    (∀ (s : TaskStore) (idr : RpcId) (tid : String), TaskStore.get s tid = none →
      handleTasksGet s idr (Js.obj [("taskId", Js.str tid)]) =
        (HttpOut.json 404 (rpcError idr (-32004) "Task not found"
          "A2A_TASK_NOT_FOUND" none), s)) := by
  have hget : ∀ (s : TaskStore) (t₁ t₂ : String),
      normalizeTaskId t₁ = normalizeTaskId t₂ →
      TaskStore.get s t₁ = TaskStore.get s t₂ := by
    intro s t₁ t₂ h
    simp [TaskStore.get, h]
  refine ⟨?_, hget, ?_, ?_⟩
  · intro s tid
    exact hget s tid (normalizeTaskId tid) (normalizeTaskId_idem tid).symm
  · intro s idr t₁ t₂ h
    have h' : TaskStore.get s (normalizeTaskId t₁) = TaskStore.get s (normalizeTaskId t₂) :=
      hget s _ _ (by rw [normalizeTaskId_idem, normalizeTaskId_idem, h])
    simp only [handleTasksGet, inputTaskId_str]
    rw [h']
  · intro s idr tid hnone
    have h' : TaskStore.get s (normalizeTaskId tid) = none := by
      rw [← hget s tid (normalizeTaskId tid) (normalizeTaskId_idem tid).symm]
      exact hnone
    simp only [handleTasksGet, inputTaskId_str]
    rw [h']

theorem get_whitespace_invariant_witness :
    TaskStore.get cexStore1 " task\t-aa " = TaskStore.get cexStore1 "task-aa" ∧
    handleTasksGet cexStore1 (RpcId.str "w1") (Js.obj [("taskId", Js.str "nope")]) =
      (HttpOut.json 404 (rpcError (RpcId.str "w1") (-32004) "Task not found"
        "A2A_TASK_NOT_FOUND" none), cexStore1) :=
  ⟨get_whitespace_invariant.2.1 cexStore1 " task\t-aa " "task-aa" (by decide),
   get_whitespace_invariant.2.2.2 cexStore1 (RpcId.str "w1") "nope" (by decide)⟩

/-- C6: on a present task, `update` overwrites `state`, refreshes
`updatedAt`, overwrites `progress`/`message`/`result` exactly when
supplied (keeping the prior values otherwise), and appends exactly one
event with the post-update snapshot and the caller-supplied `final` flag,
defaulting to `false`. -/
theorem update_overwrite_semantics (s : TaskStore) (tid : String) (st : TaskState)
    (o : UpdateOptions) (now : Nat) (t : TaskRecord)
    (h : TaskStore.get s tid = some t) : UpdateSpec s tid st o now t := by
  have hfind : mapFind s (normalizeTaskId tid) = some t := h
  refine ⟨updateRecord t st o now, ?_, ?_, rfl, rfl, rfl, ?_, ?_, ?_, ?_, ?_, ?_, rfl, ?_⟩
  · simp [TaskStore.update, hfind]
  · rfl
  · intro p hp; simp [updateRecord, hp]
  · intro hp; simp [updateRecord, hp]
  · intro m hm; simp [updateRecord, hm]
  · intro hm; simp [updateRecord, hm]
  · intro r hr; simp [updateRecord, hr]
  · intro hr; simp [updateRecord, hr]
  · intro hf; simp [updateRecord, List.getLast?_concat, hf]

theorem update_overwrite_semantics_witness :
    UpdateSpec cexStore1 "task-aa" .running ⟨some 50, none, none, none⟩ 7 cexTask1 :=
  update_overwrite_semantics cexStore1 "task-aa" .running
    ⟨some 50, none, none, none⟩ 7 cexTask1 (by decide)

/-- C10: the store enforces no terminal-state restriction: an update on
any present task succeeds, overwrites the state and appends the next
event, whatever the task's current state (terminal included). -/
theorem update_ignores_terminal (s : TaskStore) (tid : String) (st : TaskState)
    (o : UpdateOptions) (now : Nat) (t : TaskRecord)
    (h : TaskStore.get s tid = some t) :
    (TaskStore.update s tid st o now).isSome = true ∧
    ∀ t' s', TaskStore.update s tid st o now = some (t', s') →
      t'.state = st ∧ t'.events.length = t.events.length + 1 ∧ t.events <+: t'.events := by
  have hfind : mapFind s (normalizeTaskId tid) = some t := h
  have hupd : TaskStore.update s tid st o now =
      some (updateRecord t st o now, mapSet s (normalizeTaskId tid) (updateRecord t st o now)) := by
    simp [TaskStore.update, hfind]
  refine ⟨by rw [hupd]; rfl, ?_⟩
  intro t' s' h'
  rw [hupd] at h'
  obtain ⟨ht', _⟩ := Prod.mk.injEq .. ▸ (Option.some.injEq .. ▸ h')
  subst ht'
  refine ⟨rfl, updateRecord_events_length t st o now, ?_⟩
  rw [show (updateRecord t st o now).events = t.events ++
    [⟨t.events.length + 1, st, (updateRecord t st o now).progress,
      (updateRecord t st o now).message, o.final.getD false⟩] from rfl]
  exact List.prefix_append _ _

/-- Source: `cexTask5` is terminal (`succeeded`) and its log already holds a
`final = true` event; the update still succeeds. -/
theorem update_ignores_terminal_witness :
    (TaskStore.update cexStore5 "task-ee" .running ⟨none, none, none, none⟩ 9).isSome = true :=
  (update_ignores_terminal cexStore5 "task-ee" .running
    ⟨none, none, none, none⟩ 9 cexTask5 (by decide)).1

/-! ## Theorems: streaming engine -/

theorem emittedFrames_map_eventId (t : TaskRecord) (c : Int) :
    (emittedFrames t c).map (·.eventId) =
      (t.events.map (·.id)).filter (fun i : Nat => decide (c < (i : Int))) := by
  simp only [emittedFrames, emittedEvents, List.filter_map, List.map_map]
  rfl

/-- C1 (amended): for a task with a nonempty log whose state is terminal
at stream time, the frame sequence is non-empty; when none of the emitted
events carries `final = true` or a terminal state, one frame reusing the
last event's id with `final = true` is synthesized and ends the stream;
when some emitted event does carry `final = true` or a terminal state, no
frame is synthesized (so the stream may end with a non-final frame). -/
theorem terminal_stream_final (t : TaskRecord) (c : Int)
    (hne : t.events ≠ []) (hterm : t.state.isTerminal = true) :
    streamFrames t c ≠ [] ∧
    (terminalSeen t c = false →
      streamFrames t c = emittedFrames t c ++ [synthFrame t] ∧
      (streamFrames t c).getLast? = some (synthFrame t) ∧
      (synthFrame t).final = true ∧ (synthFrame t).eventId = lastEventId t.events) ∧
    (terminalSeen t c = true → streamFrames t c = emittedFrames t c) := by
  cases hts : terminalSeen t c with
  | false =>
      have hsf : streamFrames t c = emittedFrames t c ++ [synthFrame t] := by
        simp [streamFrames, hts, hterm]
      exact ⟨by simp [hsf],
        fun _ => ⟨hsf, by rw [hsf]; exact List.getLast?_concat _, rfl, rfl⟩,
        fun h => Bool.noConfusion h⟩
  | true =>
      have hsf : streamFrames t c = emittedFrames t c := by
        simp [streamFrames, hts]
      have hmem : ∃ e ∈ emittedEvents t c, (e.final || e.state.isTerminal) = true :=
        List.any_eq_true.mp hts
      obtain ⟨e, he, -⟩ := hmem
      have hne' : emittedFrames t c ≠ [] :=
        List.ne_nil_of_mem (List.mem_map_of_mem (frameOfEvent t.taskId) he)
      exact ⟨by rw [hsf]; exact hne', fun h => Bool.noConfusion h, fun _ => hsf⟩

/-- C1 counterexample: `cexStore1` was driven to terminal `succeeded` by
an update that left `final` at its default `false`; streaming it from
cursor 0 yields frames but the last frame carries `final = false` — the
engine synthesizes nothing because the emitted events include a
terminal-state event, not only `final = true` events as the claim says. -/
theorem terminal_stream_final_cex :
    (TaskStore.get cexStore1 "task-aa").map (fun t => t.state.isTerminal) = some true ∧
    (streamTaskEvents cexStore1 "task-aa" none).framesOf ≠ [] ∧
    ((streamTaskEvents cexStore1 "task-aa" none).framesOf.getLast?).map (·.final) =
      some false := by
  decide

theorem terminal_stream_final_witness :
    streamFrames cexTask5 5 ≠ [] ∧
    streamFrames cexTask5 5 = emittedFrames cexTask5 5 ++ [synthFrame cexTask5] := by
  have h := terminal_stream_final cexTask5 5 (by decide) (by decide)
  exact ⟨h.1, (h.2.1 (by decide)).1⟩

/-- C5 (amended): the engine emits exactly the events with id strictly
greater than the cursor, in log order (ascending whenever the log ids are
ascending), one frame each — followed by at most one synthesized terminal
frame; an absent or non-numeric `Last-Event-ID` header defaults the
cursor to 0; from cursor 0 on a store-shaped log the first frame has
id 1; and `Last-Event-ID: 1` on the three-event `demoStore3` task yields
frames with ids 2 and 3 only. -/
theorem stream_cursor_selection :
    (∀ (t : TaskRecord) (c : Int),
      (streamFrames t c = emittedFrames t c ∨
        streamFrames t c = emittedFrames t c ++ [synthFrame t]) ∧
      (emittedFrames t c).map (·.eventId) =
        (t.events.map (·.id)).filter (fun i : Nat => decide (c < (i : Int))) ∧
      (List.Pairwise (· < ·) (t.events.map (·.id)) →
        List.Pairwise (· < ·) ((emittedFrames t c).map (·.eventId)))) ∧
    cursorOfHeader none = 0 ∧
    (∀ hs, jsNumberInt hs = none → cursorOfHeader (some hs) = 0) ∧
    (∀ (t : TaskRecord) (n : Nat), 0 < n → t.events.map (·.id) = List.range' 1 n →
      (streamFrames t 0).head?.map (·.eventId) = some 1) ∧
    (streamTaskEvents demoStore3 "task-dd" (some "1")).framesOf.map (·.eventId) = [2, 3] := by
  refine ⟨fun t c => ⟨?_, emittedFrames_map_eventId t c, ?_⟩, rfl, ?_, ?_, by decide⟩
  · unfold streamFrames
    split
    · exact Or.inr rfl
    · exact Or.inl rfl
  · intro hp
    rw [emittedFrames_map_eventId]
    exact List.Pairwise.filter _ hp
  · intro hs h
    simp [cursorOfHeader, h]
  · intro t n hn hids
    have hfil : t.events.filter (fun e => decide ((0 : Int) < (e.id : Int))) = t.events := by
      refine List.filter_eq_self.mpr ?_
      intro e he
      have : e.id ∈ List.range' 1 n := by
        rw [← hids]
        exact List.mem_map_of_mem (·.id) he
      obtain ⟨i, -, hi⟩ := List.mem_range'.mp this
      simp only [decide_eq_true_eq]
      omega
    have hemit : emittedFrames t 0 = t.events.map (frameOfEvent t.taskId) := by
      unfold emittedFrames emittedEvents
      rw [hfil]
    cases hev : t.events with
    | nil =>
        exfalso
        rw [hev] at hids
        have := congrArg List.length hids
        simp at this
        omega
    | cons e rest =>
        have hid1 : e.id = 1 := by
          rw [hev] at hids
          cases n with
          | zero => omega
          | succ m =>
              rw [List.range'_succ] at hids
              exact (List.cons.injEq .. ▸ hids).1
        have hhead : (streamFrames t 0).head? = some (frameOfEvent t.taskId e) := by
          unfold streamFrames
          split
          · rw [hemit, hev]
            simp [List.head?_append]
          · rw [hemit, hev]
            simp
        rw [hhead]
        simp [frameOfEvent, hid1]

/-- C5 counterexample: on the terminal task of `cexStore5`, a cursor past
the whole log selects no event, yet the engine still emits one frame (the
synthesized terminal frame), so the output is not exactly the events with
id greater than the cursor. -/
theorem stream_cursor_selection_cex :
    emittedEvents cexTask5 5 = [] ∧
    streamFrames cexTask5 5 = [synthFrame cexTask5] ∧
    (synthFrame cexTask5).eventId = 2 := by
  decide

theorem stream_cursor_selection_witness :
    cursorOfHeader (some "abc") = 0 ∧
    (streamFrames cexTask5 0).head?.map (·.eventId) = some 1 :=
  ⟨stream_cursor_selection.2.2.1 "abc" (by decide),
   stream_cursor_selection.2.2.2.1 cexTask5 2 (by decide) (by decide)⟩

/-! ## Theorems: request router -/

theorem handleMessageStream_eq (freshId : String) (now : Nat) (s : TaskStore)
    (leh : Option String) :
    handleMessageStream freshId now s leh =
      (streamTaskEvents
        (mapSet s (normalizeTaskId ("task-" ++ freshId))
          (hydratedRecord (normalizeTaskId ("task-" ++ freshId)) now))
        (normalizeTaskId ("task-" ++ freshId)) leh,
       mapSet s (normalizeTaskId ("task-" ++ freshId))
         (hydratedRecord (normalizeTaskId ("task-" ++ freshId)) now)) := by
  have hkid := normalizeTaskId_idem ("task-" ++ freshId)
  simp only [handleMessageStream, TaskStore.create, TaskStore.get, hydrateStreamTask, updStore,
    TaskStore.update, createRecord, hkid, mapFind_set_self, mapSet_mapSet]
  simp [updateRecord, hydratedRecord]

/-- C7: a request whose bearer credential does not exactly match the
configured token is answered `401 {error:"unauthorized"}` and the store is
untouched — no routing, task creation or update happens, whatever the
method and path. -/
theorem unauthorized_short_circuit (cfg : ServerConfig)
    (oracle : String → RpcId → Except String String) (fid : String) (now : Nat)
    (s : TaskStore) (m p : String) (auth : Option String) (leh : Option String)
    (body : Option Js)
    (h : isAuthorized auth cfg.authToken = false) :
    route cfg oracle fid now s ⟨m, p, auth, leh, body⟩ =
      (HttpOut.json 401 (Js.obj [("error", Js.str "unauthorized")]), s) := by
  simp [route, h]

theorem unauthorized_short_circuit_witness :
    route cexCfg cexOracle "ww" 0 [] ⟨"POST", "/a2a", none, none, none⟩ =
      (HttpOut.json 401 (Js.obj [("error", Js.str "unauthorized")]), []) :=
  unauthorized_short_circuit cexCfg cexOracle "ww" 0 [] "POST" "/a2a" none none none
    (by decide)

/-- C8: handling `tasks/resubscribe` never writes the store — the
post-request store is the pre-request store (so no event is appended and
no record mutated) — and on a found task the response is exactly the
replay produced by the streaming engine over the stored log. -/
theorem resubscribe_no_mutation (cfg : ServerConfig)
    (oracle : String → RpcId → Except String String) (fid : String) (now : Nat)
    (s : TaskStore) (auth : Option String) (leh : Option String) (b : Js)
    (rpc : JsonRpcRequest)
    (hauth : isAuthorized auth cfg.authToken = true)
    (hparse : parseJsonRpcRequest b = some rpc)
    (hmethod : rpc.method = "tasks/resubscribe") :
    (route cfg oracle fid now s ⟨"POST", "/a2a", auth, leh, some b⟩).2 = s ∧
    ∀ t, TaskStore.get s (normalizeTaskId (inputTaskId rpc.params)) = some t →
      (route cfg oracle fid now s ⟨"POST", "/a2a", auth, leh, some b⟩).1 =
        streamTaskEvents s t.taskId leh := by
  have hroute : route cfg oracle fid now s ⟨"POST", "/a2a", auth, leh, some b⟩ =
      handleResubscribe s rpc leh := by
    simp [route, hauth, hparse, hmethod]
  rw [hroute]
  constructor
  · unfold handleResubscribe
    cases h2 : TaskStore.get s (normalizeTaskId (inputTaskId rpc.params)) <;> simp [h2]
  · intro t ht
    unfold handleResubscribe
    simp [ht]

theorem resubscribe_no_mutation_witness :
    (route cexCfg cexOracle "ff" 0 cexStore1
      ⟨"POST", "/a2a", some "Bearer tok", none, some cexResubEnvelope⟩).2 = cexStore1 :=
  (resubscribe_no_mutation cexCfg cexOracle "ff" 0 cexStore1 (some "Bearer tok") none
    cexResubEnvelope
    ⟨RpcId.str "r9", "tasks/resubscribe", Js.obj [("taskId", Js.str "task-aa")]⟩
    rfl rfl rfl).1

/-- C2 (amended): a `message/stream` request whose `Last-Event-ID` header
is absent creates a new task, pre-populates its log to terminal
`succeeded` (four events), and streams from cursor 0: the first frame has
id 1 and every event of the new task's log is emitted, the last one
final. -/
theorem message_stream_full_replay (cfg : ServerConfig)
    (oracle : String → RpcId → Except String String) (fid : String) (now : Nat)
    (store : TaskStore) (auth : Option String) (b : Js) (rpc : JsonRpcRequest)
    (hauth : isAuthorized auth cfg.authToken = true)
    (hparse : parseJsonRpcRequest b = some rpc)
    (hmethod : rpc.method = "message/stream") :
    ∃ frames,
      route cfg oracle fid now store ⟨"POST", "/a2a", auth, none, some b⟩ =
        (HttpOut.sse frames,
         mapSet store (normalizeTaskId ("task-" ++ fid))
           (hydratedRecord (normalizeTaskId ("task-" ++ fid)) now)) ∧
      frames.map (·.eventId) = [1, 2, 3, 4] ∧
      frames.map (·.final) = [false, false, false, true] ∧
      frames.length = (hydratedRecord (normalizeTaskId ("task-" ++ fid)) now).events.length ∧
      (hydratedRecord (normalizeTaskId ("task-" ++ fid)) now).state = .succeeded := by
  have hroute : route cfg oracle fid now store ⟨"POST", "/a2a", auth, none, some b⟩ =
      handleMessageStream fid now store none := by
    simp [route, hauth, hparse, hmethod]
  rw [hroute, handleMessageStream_eq]
  have hget : TaskStore.get
      (mapSet store (normalizeTaskId ("task-" ++ fid))
        (hydratedRecord (normalizeTaskId ("task-" ++ fid)) now))
      (normalizeTaskId ("task-" ++ fid)) =
      some (hydratedRecord (normalizeTaskId ("task-" ++ fid)) now) :=
    get_set_self _ _ _ (normalizeTaskId_idem _)
  refine ⟨streamFrames (hydratedRecord (normalizeTaskId ("task-" ++ fid)) now) 0,
    ?_, ?_, ?_, rfl, rfl⟩
  · simp [streamTaskEvents, hget, cursorOfHeader]
  · rfl
  · rfl

/-- C2 counterexample: the same `message/stream` request sent with header
`Last-Event-ID: 2` streams from cursor 2, so the first frame has id 3 and
only two of the four log events are emitted. -/
theorem message_stream_full_replay_cex :
    cexRoute2.1.framesOf.map (·.eventId) = [3, 4] ∧
    (TaskStore.get cexRoute2.2 "task-bb").map (fun t => t.events.length) = some 4 := by
  decide

theorem message_stream_full_replay_witness :
    ∃ frames,
      route cexCfg cexOracle "bb" 0 []
          ⟨"POST", "/a2a", some "Bearer tok", none, some cexStreamEnvelope⟩ =
        (HttpOut.sse frames,
         mapSet [] (normalizeTaskId ("task-" ++ "bb"))
           (hydratedRecord (normalizeTaskId ("task-" ++ "bb")) 0)) ∧
      frames.map (·.eventId) = [1, 2, 3, 4] ∧
      frames.map (·.final) = [false, false, false, true] ∧
      frames.length = (hydratedRecord (normalizeTaskId ("task-" ++ "bb")) 0).events.length ∧
      (hydratedRecord (normalizeTaskId ("task-" ++ "bb")) 0).state = .succeeded :=
  message_stream_full_replay cexCfg cexOracle "bb" 0 [] (some "Bearer tok")
    cexStreamEnvelope ⟨RpcId.str "r1", "message/stream", Js.undefVal⟩ rfl rfl rfl
